import Mathlib

/-!
Shallow embedding of `scheduler.py` from the changes-mesos-framework
repository: the `HTTPProxyScheduler` class (offer decoding, the
decision-service request, task-launch building, status-update
accounting, and the lifecycle callbacks), plus the exit-status
computation of the `__main__` block.

Conventions of the embedding:
- Python floats carried in protobuf scalars and JSON numbers are
  modelled as `Rat` (all values in the claims are exact).
- A Python exception propagating out of a method is modelled with
  `Except PyError`.
- Mutation of `self` is modelled by explicit state passing on
  `SchedulerState`.
- Calls made on the driver (`driver.launchTasks`) are collected in a
  `List DriverCall`; calls to the `logging` module are collected in a
  `List Effect`.  The decision-service HTTP round-trip
  (`requests.post` followed by `resp.json()`) is an environment input,
  passed as a function from the serialized offer record to
  `Except PyError (List TaskToRun)`.
-/

/- ---------------------------------------------------------------
   Protobuf-side data (mesos_pb2 messages as the scheduler reads them)
   --------------------------------------------------------------- -/

/-- A `{begin, end}` pair of a protobuf `Value.Ranges.Range` entry
(`ra.begin`, `ra.end` in the source).  `end` is a Lean keyword, so the
fields are `rangeBegin`/`rangeEnd`. -/
structure RangePair where
  rangeBegin : Int
  rangeEnd : Int
deriving Repr, DecidableEq

/-- The `scalar` submessage: `pb.scalar.value`. -/
structure ScalarPb where
  value : Rat
deriving Repr, DecidableEq

/-- The `ranges` submessage: `pb.ranges.range`. -/
structure RangesPb where
  range : List RangePair
deriving Repr, DecidableEq

/-- The `set` submessage: `pb.set.item`. -/
structure SetPb where
  item : List String
deriving Repr, DecidableEq

/-- A tagged typed protobuf value as `_decode_typed_field` reads it: a
`type` tag plus all payload submessages (`name` is present on the
enclosing `Resource`/`Attribute` message and read by
`_decode_attribute`/`_decode_resource`). -/
structure ValuePb where
  name : String
  type : Int
  scalar : ScalarPb
  ranges : RangesPb
  set : SetPb
  text : String
deriving Repr, DecidableEq

/-- An id message carrying a single `value` string (`OfferID`,
`SlaveID`, `TaskID`, `FrameworkID`, `ExecutorID` all have this shape). -/
structure IdPb where
  value : String
deriving Repr, DecidableEq

/-- The fields of `mesos_pb2.ExecutorInfo` that `__main__` sets; the
scheduler treats the whole message as one opaque reference
(`task.executor.MergeFrom(self.executor)` copies it wholesale). -/
structure ExecutorInfo where
  executor_id : IdPb
  command : String
  name : String
  source : String
deriving Repr, DecidableEq

/-- An `Offer` protobuf as `resourceOffers` reads it. -/
structure Offer where
  id : IdPb
  framework_id : IdPb
  slave_id : IdPb
  hostname : String
  attributes : List ValuePb
  executor_ids : List IdPb
  resources : List ValuePb
deriving Repr, DecidableEq

/-- A resource entry built on a `TaskInfo` (`task.resources.add()` then
setting `name`, `type`, `scalar.value`).  `mesos_pb2.Value.SCALAR = 0`. -/
structure TaskResourcePb where
  name : String
  type : Int
  scalar : ScalarPb
deriving Repr, DecidableEq

/-- A `TaskInfo` protobuf as built in the launch loop of
`resourceOffers`. -/
structure TaskInfo where
  task_id : IdPb
  slave_id : IdPb
  name : String
  executor : ExecutorInfo
  resources : List TaskResourcePb
deriving Repr, DecidableEq

/-- A `TaskStatus` protobuf as `statusUpdate` reads it: `update.task_id`
and `update.state`. -/
structure TaskStatus where
  task_id : IdPb
  state : Int
deriving Repr, DecidableEq

/-- Constant `mesos_pb2.TASK_FINISHED` (the only state constant the scheduler
compares against; the source's comment block lists `TASK_FINISHED = 2`). -/
def TASK_FINISHED : Int := 2

/-- Constant `mesos_pb2.DRIVER_STOPPED` (mesos `Status` enum value 4). -/
def DRIVER_STOPPED : Int := 4

/-- Constant `mesos_pb2.DRIVER_ABORTED` (mesos `Status` enum value 3; what
`driver.run()` returns after the driver was aborted, as it is before the
`error` callback fires). -/
def DRIVER_ABORTED : Int := 3

/- ---------------------------------------------------------------
   Python-side values and effects
   --------------------------------------------------------------- -/

/-- A Python exception escaping a scheduler method. -/
inductive PyError where
  /-- `Exception("Unknown field type: %s" % field_type)` raised by
  `_decode_typed_field`. -/
  | unknownFieldType (t : Int)
  /-- `NameError` for an unbound local name. -/
  | nameError (n : String)
  /-- an exception out of the decision-service round-trip
  (`requests.post` network failure, or `resp.json()` on a body that is
  not valid JSON, as a non-success error page typically is). -/
  | requestError
deriving Repr, DecidableEq

/-- The Python value `_decode_typed_field` returns: a float, a list of
`{"begin": _, "end": _}` dicts, the set's item list, or a string. -/
inductive DecodedValue where
  | scalar (v : Rat)
  | rangeList (l : List RangePair)
  | stringSet (s : List String)
  | text (t : String)
deriving Repr, DecidableEq

/-- Severity of a `logging` call (`logging.warn` is the deprecated alias
of `logging.warning`). -/
inductive LogLevel where
  | debug
  | info
  | warning
  | error
deriving Repr, DecidableEq

/-- An observable side effect of a lifecycle callback: a `logging` call
or a `sys.exit(code)`. -/
inductive Effect where
  | log (lvl : LogLevel) (msg : String)
  | sysExit (code : Int)
deriving Repr, DecidableEq

/-- A call issued on the scheduler driver. -/
inductive DriverCall where
  | launchTasks (offerId : IdPb) (tasks : List TaskInfo)
deriving Repr, DecidableEq

/-- Holds exactly when the effect list contains a `sys.exit`. -/
def containsExit (effs : List Effect) : Bool :=
  effs.any fun e => match e with
    | .sysExit _ => true
    | _ => false

/-- Number of `launchTasks` calls naming a given offer id. -/
def countLaunchCalls (oid : IdPb) (calls : List DriverCall) : Nat :=
  calls.countP fun c => match c with
    | .launchTasks o _ => o = oid

/-- Holds exactly when a method outcome is a propagating exception. -/
def escapesException {α : Type} (r : Except PyError α) : Bool :=
  match r with
  | .error _ => true
  | .ok _ => false

/- ---------------------------------------------------------------
   Scheduler state (the mutable fields of HTTPProxyScheduler)
   --------------------------------------------------------------- -/

/-- The instance fields set in `HTTPProxyScheduler.__init__`:
`self.executor`, `self.service`, `self.tasksLaunched`,
`self.tasksFinished`. -/
structure SchedulerState where
  executor : ExecutorInfo
  service : String
  tasksLaunched : Nat
  tasksFinished : Nat
deriving Repr, DecidableEq

namespace HTTPProxyScheduler

/- ---------------------------------------------------------------
   Typed-value decoding (source lines 51-71)
   --------------------------------------------------------------- -/

/-- Method `_decode_typed_field(pb)`: dispatch on `pb.type`; `0` → the scalar's
float value, `1` → the list of `{begin, end}` dicts, `2` → the set
items, `3` → the text, anything else raises
`Exception("Unknown field type: %s" % field_type)`. -/
def _decode_typed_field (pb : ValuePb) : Except PyError DecodedValue :=
  if pb.type = 0 then
    .ok (.scalar pb.scalar.value)
  else if pb.type = 1 then
    .ok (.rangeList pb.ranges.range)
  else if pb.type = 2 then
    .ok (.stringSet pb.set.item)
  else if pb.type = 3 then
    .ok (.text pb.text)
  else
    .error (.unknownFieldType pb.type)

/-- Method `_decode_attribute(attr_pb)`: the singleton dict
`{attr_pb.name: decoded}` modelled as a name/value pair. -/
def _decode_attribute (attr_pb : ValuePb) : Except PyError (String × DecodedValue) := do
  let v ← _decode_typed_field attr_pb
  return (attr_pb.name, v)

/-- Method `_decode_resource(resource_pb)`: the pair
`(resource_pb.name, decoded)`. -/
def _decode_resource (resource_pb : ValuePb) : Except PyError (String × DecodedValue) := do
  let v ← _decode_typed_field resource_pb
  return (resource_pb.name, v)

/- ---------------------------------------------------------------
   statusUpdate (source lines 147-178)
   --------------------------------------------------------------- -/

/-- Method `statusUpdate(self, driver, update)`: logs the task id and state,
then increments `self.tasksFinished` when `update.state ==
mesos_pb2.TASK_FINISHED`; no other field is touched and no per-task
record is kept (the `self.taskData` bookkeeping is commented out in the
source). -/
def statusUpdate (s : SchedulerState) (update : TaskStatus) :
    SchedulerState × List Effect :=
  let effs : List Effect :=
    [.log .info ("Task " ++ update.task_id.value ++ " is in state "
      ++ toString update.state)]
  if update.state = TASK_FINISHED then
    ({ s with tasksFinished := s.tasksFinished + 1 }, effs)
  else
    (s, effs)

/- ---------------------------------------------------------------
   resourceOffers (source lines 73-134)
   --------------------------------------------------------------- -/

/-- The `info` dict built per offer before posting it to the decision
service.  The Python `resources` dict comprehension maps names to
decoded values (last-wins on duplicate names); here the name/value
pairs are kept in list order since the record is only handed to the
decision-service round-trip. -/
structure OfferInfo where
  attributes : List (String × DecodedValue)
  executor_ids : List String
  framework_id : String
  hostname : String
  id : String
  resources : List (String × DecodedValue)
deriving Repr, DecidableEq

/-- Builds the `info` dict of `resourceOffers` for one offer; decoding
an attribute or resource with an unknown type tag raises, as
`_decode_typed_field` does. -/
def decodeOffer (offer : Offer) : Except PyError OfferInfo := do
  let attrs ← offer.attributes.mapM _decode_attribute
  let ress ← offer.resources.mapM _decode_resource
  return { attributes := attrs
           executor_ids := offer.executor_ids.map (fun ei => ei.value)
           framework_id := offer.framework_id.value
           hostname := offer.hostname
           id := offer.id.value
           resources := ress }

/-- The `resources` sub-dict of one decision-service task spec
(`task_to_run["resources"]["cpus"]`, `...["mem"]`). -/
structure TaskResources where
  cpus : Rat
  mem : Rat
deriving Repr, DecidableEq

/-- One element of the decision service's JSON response array:
`{id: string, resources: {cpus: number, mem: number}}`. -/
structure TaskToRun where
  id : String
  resources : TaskResources
deriving Repr, DecidableEq

/-- The decision-service round-trip for one offer: `requests.post(...)`
followed by `resp.json()`.  An environment input of `resourceOffers`;
`.error` is an exception out of either call. -/
def DecisionService : Type :=
  OfferInfo → Except PyError (List TaskToRun)

/-- The `TaskInfo` built for one `task_to_run` in the launch loop:
`task.task_id.value = str(tid)`, the offer's slave id, the name
`"task %s" % tid`, `MergeFrom(self.executor)`, and two SCALAR resources
`cpus`/`mem` set exactly to the amounts the spec requested. -/
def buildTask (executor : ExecutorInfo) (offer : Offer) (t : TaskToRun) :
    TaskInfo :=
  { task_id := ⟨t.id⟩
    slave_id := ⟨offer.slave_id.value⟩
    name := "task " ++ t.id
    executor := executor
    resources :=
      [ { name := "cpus", type := 0, scalar := ⟨t.resources.cpus⟩ }
      , { name := "mem", type := 0, scalar := ⟨t.resources.mem⟩ } ] }

/-- The `for task_to_run in tasks_to_run` loop: per iteration it
increments `self.tasksLaunched`, builds a `TaskInfo`, and appends it to
`tasks`. -/
def launchLoop (executor : ExecutorInfo) (offer : Offer) :
    SchedulerState → List TaskToRun → SchedulerState × List TaskInfo
  | s, [] => (s, [])
  | s, t :: rest =>
    let s1 := { s with tasksLaunched := s.tasksLaunched + 1 }
    let task := buildTask executor offer t
    let (s2, tasks) := launchLoop executor offer s1 rest
    (s2, task :: tasks)

/-- One iteration of the `for offer in offers` loop of
`resourceOffers`: build `info` (may raise), post it to the decision
service and parse the response (may raise), run the launch loop, then
call `driver.launchTasks(offer.id, tasks)` — unconditionally, also when
`tasks` is empty. -/
def processOffer (svc : DecisionService) (s : SchedulerState)
    (offer : Offer) : Except PyError (SchedulerState × List DriverCall) := do
  let info ← decodeOffer offer
  let tasks_to_run ← svc info
  let (s1, tasks) := launchLoop s.executor offer s tasks_to_run
  return (s1, [.launchTasks offer.id tasks])

/-- Method `resourceOffers(self, driver, offers)`: process the offers in
order; an exception thrown while handling one offer propagates to the
driver layer, keeping the state mutations and `launchTasks` calls
already made for the earlier offers. -/
def resourceOffers (svc : DecisionService) :
    SchedulerState → List Offer →
    SchedulerState × List DriverCall × Option PyError
  | s, [] => (s, [], none)
  | s, offer :: rest =>
    match processOffer svc s offer with
    | .error e => (s, [], some e)
    | .ok (s1, calls) =>
      let (s2, calls2, err) := resourceOffers svc s1 rest
      (s2, calls ++ calls2, err)

/- ---------------------------------------------------------------
   Lifecycle callbacks (source lines 136-209)
   --------------------------------------------------------------- -/

/-- Method `offerRescinded(self, driver, offerId)`: logs the rescinded offer
id and does nothing else. -/
def offerRescinded (s : SchedulerState) (offerId : IdPb) :
    SchedulerState × List Effect :=
  (s, [.log .info ("Offer rescinded: " ++ offerId.value)])

/-- The local names bound in the body of `executorLost`
(`self`, `driver`, and its three parameters). -/
def executorLostLocals : List String :=
  ["self", "driver", "executorId", "slaveId", "status"]

/-- Method `executorLost(self, driver, executorId, slaveId, status)`: the
single statement formats `exeuctorId.value` — a misspelling of the
`executorId` parameter — so evaluating the log call's argument raises
`NameError` before anything is logged. -/
def executorLost (s : SchedulerState) (executorId slaveId : IdPb)
    (status : Int) : Except PyError (SchedulerState × List Effect) :=
  if executorLostLocals.contains "exeuctorId" then
    .ok (s, [.log .warning ("Executor " ++ executorId.value
      ++ " lost on slave " ++ slaveId.value)])
  else
    .error (.nameError "exeuctorId")

/-- Method `error(self, driver, message)`: logs at error level and returns;
the body contains no exit, abort, or state mutation. -/
def error (s : SchedulerState) (message : String) :
    SchedulerState × List Effect :=
  (s, [.log .error ("Error from Mesos: " ++ message)])

end HTTPProxyScheduler

/-- The exit-status computation of the `__main__` block:
`status = 0 if driver.run() == mesos_pb2.DRIVER_STOPPED else 1`,
followed by `sys.exit(status)`. -/
def mainExitStatus (runResult : Int) : Int :=
  if runResult = DRIVER_STOPPED then 0 else 1

/- ---------------------------------------------------------------
   Concrete fixtures for witnesses and counterexamples
   --------------------------------------------------------------- -/

/-- The executor `__main__` constructs (the command string is the
abspath of `./executor.py`; its exact text is irrelevant to every
claim). -/
def executor0 : ExecutorInfo :=
  { executor_id := ⟨"default"⟩
    command := "./executor.py"
    name := "HTTP Proxy Executor"
    source := "http_proxy" }

/-- A freshly constructed scheduler, as `__init__` leaves it:
both counters zero. -/
def state0 : SchedulerState :=
  { executor := executor0
    service := "http://localhost:5000/"
    tasksLaunched := 0
    tasksFinished := 0 }

/-- A scalar cpus resource of 4 on an offer. -/
def cpusRes4 : ValuePb :=
  { name := "cpus", type := 0, scalar := ⟨4⟩, ranges := ⟨[]⟩
    set := ⟨[]⟩, text := "" }

/-- A scalar mem resource of 2048 on an offer. -/
def memRes2048 : ValuePb :=
  { name := "mem", type := 0, scalar := ⟨2048⟩, ranges := ⟨[]⟩
    set := ⟨[]⟩, text := "" }

/-- The offer of Scenario A: resources `{cpus: 4, mem: 2048}`. -/
def offerA : Offer :=
  { id := ⟨"offer-1"⟩
    framework_id := ⟨"fw-1"⟩
    slave_id := ⟨"slave-1"⟩
    hostname := "host1"
    attributes := []
    executor_ids := []
    resources := [cpusRes4, memRes2048] }

/-- The `info` record `resourceOffers` builds for `offerA`. -/
def infoA : HTTPProxyScheduler.OfferInfo :=
  { attributes := []
    executor_ids := []
    framework_id := "fw-1"
    hostname := "host1"
    id := "offer-1"
    resources := [("cpus", .scalar 4), ("mem", .scalar 2048)] }

/-- The decision response of Scenario A:
`[{id:"t1", resources:{cpus:1, mem:256}}]`. -/
def taskSpecT1 : HTTPProxyScheduler.TaskToRun :=
  { id := "t1", resources := { cpus := 1, mem := 256 } }

/-- A decision service answering `[taskSpecT1]` to every offer. -/
def svcA : HTTPProxyScheduler.DecisionService := fun _ => .ok [taskSpecT1]

/-- A decision service answering the empty task list to every offer. -/
def svcEmpty : HTTPProxyScheduler.DecisionService := fun _ => .ok []

/-- A decision service whose round-trip raises on every offer (network
failure, or a non-success response whose body `resp.json()` cannot
parse). -/
def svcFail : HTTPProxyScheduler.DecisionService := fun _ => .error .requestError

/-- A FINISHED status update for task id `t1`. -/
def finishedT1 : TaskStatus := { task_id := ⟨"t1"⟩, state := TASK_FINISHED }

/-- A RUNNING (state 1) status update for task id `t2`. -/
def runningT2 : TaskStatus := { task_id := ⟨"t2"⟩, state := 1 }

/- ---------------------------------------------------------------
   Helper lemmas
   --------------------------------------------------------------- -/

/-- The launch loop increments `tasksLaunched` once per spec — in total
by the list's length — touches no other field, and builds the tasks in
order with `buildTask`. -/
theorem launchLoop_eq (executor : ExecutorInfo) (offer : Offer)
    (s : SchedulerState) (l : List HTTPProxyScheduler.TaskToRun) :
    HTTPProxyScheduler.launchLoop executor offer s l =
      ({ s with tasksLaunched := s.tasksLaunched + l.length },
       l.map (HTTPProxyScheduler.buildTask executor offer)) := by
  induction l generalizing s with
  | nil => simp [HTTPProxyScheduler.launchLoop]
  | cons t rest ih =>
    simp only [HTTPProxyScheduler.launchLoop, ih, List.map_cons,
      List.length_cons]
    have h : s.tasksLaunched + 1 + rest.length
        = s.tasksLaunched + (rest.length + 1) := by omega
    simp [h]

/-- Unfolding of one offer iteration once the `info` record and the
decision response are known. -/
theorem processOffer_ok (svc : HTTPProxyScheduler.DecisionService)
    (s : SchedulerState) (offer : Offer)
    (info : HTTPProxyScheduler.OfferInfo)
    (l : List HTTPProxyScheduler.TaskToRun)
    (hinfo : HTTPProxyScheduler.decodeOffer offer = .ok info)
    (hsvc : svc info = .ok l) :
    HTTPProxyScheduler.processOffer svc s offer =
      .ok ({ s with tasksLaunched := s.tasksLaunched + l.length },
           [.launchTasks offer.id
              (l.map (HTTPProxyScheduler.buildTask s.executor offer))]) := by
  simp only [HTTPProxyScheduler.processOffer, bind, Except.bind, hinfo,
    hsvc, launchLoop_eq, pure, Except.pure]

/-- Unfolding of one offer iteration when the decision round-trip
raises. -/
theorem processOffer_error (svc : HTTPProxyScheduler.DecisionService)
    (s : SchedulerState) (offer : Offer)
    (info : HTTPProxyScheduler.OfferInfo) (e : PyError)
    (hinfo : HTTPProxyScheduler.decodeOffer offer = .ok info)
    (hsvc : svc info = .error e) :
    HTTPProxyScheduler.processOffer svc s offer = .error e := by
  simp only [HTTPProxyScheduler.processOffer, bind, Except.bind, hinfo,
    hsvc]

/- ---------------------------------------------------------------
   Claims
   --------------------------------------------------------------- -/

/-- C1 counterexample: the claim says a duplicate FINISHED update for an
already-finished task leaves the finished-task counter unchanged.  On a
fresh scheduler, the first FINISHED update for task "t1" makes the
counter 1, and delivering the very same update again makes it 2, not 1:
`statusUpdate` keeps no per-task state and counts every FINISHED
update. -/
theorem c1_duplicate_finished_double_counts :
    (HTTPProxyScheduler.statusUpdate state0 finishedT1).1.tasksFinished = 1 ∧
    (HTTPProxyScheduler.statusUpdate
      (HTTPProxyScheduler.statusUpdate state0 finishedT1).1
      finishedT1).1.tasksFinished = 2 ∧
    (2 : Nat) ≠ 1 := by
  refine ⟨rfl, rfl, by decide⟩

/-- C1 (amended): the scheduler records no per-task state, so every
status update whose state is TASK_FINISHED increments the finished-task
counter by 1 — including a repeated FINISHED update for the same task
id, which therefore adds 2 over two deliveries — while an update with
any other state leaves the whole state unchanged. -/
theorem c1_finished_counting (s : SchedulerState) (u : TaskStatus) :
    (u.state = TASK_FINISHED →
      (HTTPProxyScheduler.statusUpdate s u).1.tasksFinished
        = s.tasksFinished + 1 ∧
      (HTTPProxyScheduler.statusUpdate
        (HTTPProxyScheduler.statusUpdate s u).1 u).1.tasksFinished
        = s.tasksFinished + 2) ∧
    (u.state ≠ TASK_FINISHED →
      (HTTPProxyScheduler.statusUpdate s u).1 = s) := by
  constructor
  · intro h
    simp [HTTPProxyScheduler.statusUpdate, h]
  · intro h
    simp [HTTPProxyScheduler.statusUpdate, h]

/-- Witness for C1 (amended) at the fresh state and the FINISHED update
for task "t1". -/
theorem c1_finished_counting_witness :
    (HTTPProxyScheduler.statusUpdate state0 finishedT1).1.tasksFinished
      = state0.tasksFinished + 1 ∧
    (HTTPProxyScheduler.statusUpdate
      (HTTPProxyScheduler.statusUpdate state0 finishedT1).1
      finishedT1).1.tasksFinished = state0.tasksFinished + 2 :=
  (c1_finished_counting state0 finishedT1).1 rfl

/-- C2 counterexample: the claim says `launchTasks` is not invoked for
an offer whose decision service returns an empty list.  With the
service answering `[]` on the Scenario-A offer, the handler still
invokes `driver.launchTasks(offer.id, [])` — one launch call naming
that offer id, not zero. -/
theorem c2_empty_response_still_calls_launchTasks :
    HTTPProxyScheduler.processOffer svcEmpty state0 offerA =
      .ok (state0, [DriverCall.launchTasks offerA.id []]) ∧
    countLaunchCalls offerA.id [DriverCall.launchTasks offerA.id []] = 1 ∧
    (1 : Nat) ≠ 0 := by
  refine ⟨rfl, by decide, by decide⟩

/-- C2 (amended): for every offer whose decision round-trip raises, no
launch call is issued for that offer (the exception propagates instead);
for every offer whose decision service returns an empty list,
`launchTasks` is invoked exactly once for its offer id, with an empty
task list (so no task is launched and the launched-counter is
unchanged). -/
theorem c2_empty_or_failed_decision (svc : HTTPProxyScheduler.DecisionService)
    (s : SchedulerState) (offer : Offer)
    (info : HTTPProxyScheduler.OfferInfo)
    (hinfo : HTTPProxyScheduler.decodeOffer offer = .ok info) :
    (∀ e, svc info = .error e →
      HTTPProxyScheduler.resourceOffers svc s [offer] = (s, [], some e)) ∧
    (svc info = .ok [] →
      HTTPProxyScheduler.processOffer svc s offer =
        .ok (s, [DriverCall.launchTasks offer.id []])) := by
  constructor
  · intro e hsvc
    simp [HTTPProxyScheduler.resourceOffers,
      processOffer_error svc s offer info e hinfo hsvc]
  · intro hsvc
    simpa using processOffer_ok svc s offer info [] hinfo hsvc

/-- Witness for C2 (amended) on the Scenario-A offer, with the failing
service and with the empty-answer service. -/
theorem c2_empty_or_failed_decision_witness :
    HTTPProxyScheduler.resourceOffers svcFail state0 [offerA]
      = (state0, [], some .requestError) ∧
    HTTPProxyScheduler.processOffer svcEmpty state0 offerA =
      .ok (state0, [DriverCall.launchTasks offerA.id []]) :=
  ⟨(c2_empty_or_failed_decision svcFail state0 offerA infoA rfl).1
      .requestError rfl,
   (c2_empty_or_failed_decision svcEmpty state0 offerA infoA rfl).2 rfl⟩

/-- C3: for every offer whose decision round-trip yields a non-empty
list `l` of task specs, the handler issues exactly one `launchTasks`
call for that offer id, batching all `l.length` built tasks into it,
and `tasksLaunched` grows by exactly `l.length` (the launch loop
increments it once per built spec). -/
theorem c3_one_batched_launch_per_offer
    (svc : HTTPProxyScheduler.DecisionService) (s : SchedulerState)
    (offer : Offer) (info : HTTPProxyScheduler.OfferInfo)
    (l : List HTTPProxyScheduler.TaskToRun)
    (hinfo : HTTPProxyScheduler.decodeOffer offer = .ok info)
    (hsvc : svc info = .ok l) (_hn : 1 ≤ l.length) :
    HTTPProxyScheduler.processOffer svc s offer =
      .ok ({ s with tasksLaunched := s.tasksLaunched + l.length },
        [DriverCall.launchTasks offer.id
          (l.map (HTTPProxyScheduler.buildTask s.executor offer))]) ∧
    (l.map (HTTPProxyScheduler.buildTask s.executor offer)).length
      = l.length := by
  exact ⟨processOffer_ok svc s offer info l hinfo hsvc, by simp⟩

/-- Witness for C3 on the Scenario-A offer with the one-task decision
response. -/
theorem c3_one_batched_launch_per_offer_witness :
    HTTPProxyScheduler.processOffer svcA state0 offerA =
      .ok ({ state0 with
              tasksLaunched := state0.tasksLaunched + [taskSpecT1].length },
        [DriverCall.launchTasks offerA.id
          ([taskSpecT1].map
            (HTTPProxyScheduler.buildTask state0.executor offerA))]) ∧
    ([taskSpecT1].map
      (HTTPProxyScheduler.buildTask state0.executor offerA)).length
      = [taskSpecT1].length :=
  c3_one_batched_launch_per_offer svcA state0 offerA infoA [taskSpecT1]
    rfl rfl (by decide)

/-- C4 counterexample: the claim says that on a non-success decision
response no exception escapes to the caller of the offer-handling path.
With the round-trip raising (as it does when a non-success error page
makes `resp.json()` fail), the exception propagates out of the handler:
the outcome of processing the Scenario-A offer is the error itself, not
a normal return. -/
theorem c4_decision_failure_exception_escapes :
    HTTPProxyScheduler.processOffer svcFail state0 offerA
      = .error .requestError ∧
    escapesException
      (HTTPProxyScheduler.processOffer svcFail state0 offerA) = true := by
  refine ⟨rfl, rfl⟩

/-- C4 (amended): for every offer whose decision round-trip raises, no
launch call is issued for that offer — the batch ends with zero
`launchTasks` calls — but the exception escapes to the caller of the
offer-handling path (the source has no per-offer error handling); the
offer is declined only implicitly, by the resource manager's own offer
timeout. -/
theorem c4_decision_failure_propagates
    (svc : HTTPProxyScheduler.DecisionService) (s : SchedulerState)
    (offer : Offer) (info : HTTPProxyScheduler.OfferInfo) (e : PyError)
    (hinfo : HTTPProxyScheduler.decodeOffer offer = .ok info)
    (hsvc : svc info = .error e) :
    HTTPProxyScheduler.processOffer svc s offer = .error e ∧
    escapesException (HTTPProxyScheduler.processOffer svc s offer) = true ∧
    HTTPProxyScheduler.resourceOffers svc s [offer] = (s, [], some e) ∧
    countLaunchCalls offer.id
      (HTTPProxyScheduler.resourceOffers svc s [offer]).2.1 = 0 := by
  have h := processOffer_error svc s offer info e hinfo hsvc
  refine ⟨h, ?_, ?_, ?_⟩
  · simp [escapesException, h]
  · simp [HTTPProxyScheduler.resourceOffers, h]
  · simp [HTTPProxyScheduler.resourceOffers, h, countLaunchCalls]

/-- Witness for C4 (amended) on the Scenario-A offer with the failing
decision service. -/
theorem c4_decision_failure_propagates_witness :
    HTTPProxyScheduler.processOffer svcFail state0 offerA
      = .error .requestError ∧
    escapesException
      (HTTPProxyScheduler.processOffer svcFail state0 offerA) = true ∧
    HTTPProxyScheduler.resourceOffers svcFail state0 [offerA]
      = (state0, [], some .requestError) ∧
    countLaunchCalls offerA.id
      (HTTPProxyScheduler.resourceOffers svcFail state0 [offerA]).2.1
      = 0 :=
  c4_decision_failure_propagates svcFail state0 offerA infoA
    .requestError rfl rfl

/-- C5: for every tagged typed value, `_decode_typed_field` returns the
scalar's float value on tag 0 (Scalar), the ordered `{begin, end}` pair
list on tag 1 (RangeSet), the set items on tag 2 (StringSet), the text
on tag 3 (Text), and fails with the unknown-field-type error exactly
when the tag is outside these four; the embedding is a pure function,
so the transform has no side effects. -/
theorem c5_decode_typed_field_cases (pb : ValuePb) :
    (pb.type = 0 →
      HTTPProxyScheduler._decode_typed_field pb
        = .ok (.scalar pb.scalar.value)) ∧
    (pb.type = 1 →
      HTTPProxyScheduler._decode_typed_field pb
        = .ok (.rangeList pb.ranges.range)) ∧
    (pb.type = 2 →
      HTTPProxyScheduler._decode_typed_field pb
        = .ok (.stringSet pb.set.item)) ∧
    (pb.type = 3 →
      HTTPProxyScheduler._decode_typed_field pb
        = .ok (.text pb.text)) ∧
    (pb.type ≠ 0 → pb.type ≠ 1 → pb.type ≠ 2 → pb.type ≠ 3 →
      HTTPProxyScheduler._decode_typed_field pb
        = .error (.unknownFieldType pb.type)) := by
  refine ⟨?_, ?_, ?_, ?_, ?_⟩
  · intro h; simp [HTTPProxyScheduler._decode_typed_field, h]
  · intro h; simp [HTTPProxyScheduler._decode_typed_field, h]
  · intro h; simp [HTTPProxyScheduler._decode_typed_field, h]
  · intro h; simp [HTTPProxyScheduler._decode_typed_field, h]
  · intro h0 h1 h2 h3
    simp [HTTPProxyScheduler._decode_typed_field, h0, h1, h2, h3]

/-- Witness for C5 at a concrete scalar value (tag 0, payload 4) and a
concrete unknown tag (7). -/
theorem c5_decode_typed_field_witness :
    HTTPProxyScheduler._decode_typed_field cpusRes4 = .ok (.scalar 4) ∧
    HTTPProxyScheduler._decode_typed_field { cpusRes4 with type := 7 }
      = .error (.unknownFieldType 7) :=
  ⟨(c5_decode_typed_field_cases cpusRes4).1 rfl,
   (c5_decode_typed_field_cases { cpusRes4 with type := 7 }).2.2.2.2
     (by decide) (by decide) (by decide) (by decide)⟩

/-- C6: every built launch request carries the spec's task id, the
offer's slave id, the framework's fixed executor reference, and cpu and
mem scalar resources set exactly to the requested amounts; and on
Scenario A (offer `{cpus: 4, mem: 2048}`, decision response
`[{id:"t1", resources:{cpus:1, mem:256}}]`) exactly one launch request
is built for the offer id, with task id "t1", cpu 1, mem 256, and the
launched-counter becomes 1. -/
theorem c6_launch_request_fields_and_scenarioA :
    (∀ (executor : ExecutorInfo) (offer : Offer)
        (t : HTTPProxyScheduler.TaskToRun),
      (HTTPProxyScheduler.buildTask executor offer t).task_id.value = t.id ∧
      (HTTPProxyScheduler.buildTask executor offer t).slave_id
        = offer.slave_id ∧
      (HTTPProxyScheduler.buildTask executor offer t).executor = executor ∧
      (HTTPProxyScheduler.buildTask executor offer t).resources =
        [ { name := "cpus", type := 0, scalar := ⟨t.resources.cpus⟩ }
        , { name := "mem", type := 0, scalar := ⟨t.resources.mem⟩ } ]) ∧
    HTTPProxyScheduler.processOffer svcA state0 offerA =
      .ok ({ state0 with tasksLaunched := 1 },
        [DriverCall.launchTasks offerA.id
          [HTTPProxyScheduler.buildTask state0.executor offerA taskSpecT1]]) ∧
    (HTTPProxyScheduler.buildTask state0.executor offerA
      taskSpecT1).task_id.value = "t1" ∧
    (HTTPProxyScheduler.buildTask state0.executor offerA
      taskSpecT1).resources =
      [ { name := "cpus", type := 0, scalar := ⟨1⟩ }
      , { name := "mem", type := 0, scalar := ⟨256⟩ } ] := by
  refine ⟨fun executor offer t => ⟨rfl, rfl, rfl, rfl⟩, rfl, rfl, rfl⟩

/-- C7 counterexample: the claim says the error callback does not merely
log and return.  On a concrete fatal message it does exactly that: it
returns the state unchanged with the single error-level log effect and
no `sys.exit` among its effects. -/
theorem c7_error_callback_only_logs :
    HTTPProxyScheduler.error state0 "boom" =
      (state0, [Effect.log LogLevel.error "Error from Mesos: boom"]) ∧
    containsExit (HTTPProxyScheduler.error state0 "boom").2 = false := by
  refine ⟨rfl, rfl⟩

/-- C7 (amended): the error callback logs the message at error level and
returns with the state unchanged, issuing no exit itself; the non-zero
exit status is produced afterwards by the `__main__` block, which exits
with 1 whenever `driver.run()` returns anything other than
DRIVER_STOPPED — in particular DRIVER_ABORTED, the status after the
fatal error aborted the driver. -/
theorem c7_error_logs_and_main_exits_nonzero (s : SchedulerState)
    (m : String) :
    HTTPProxyScheduler.error s m =
      (s, [Effect.log LogLevel.error ("Error from Mesos: " ++ m)]) ∧
    containsExit (HTTPProxyScheduler.error s m).2 = false ∧
    mainExitStatus DRIVER_ABORTED = 1 ∧
    mainExitStatus DRIVER_STOPPED = 0 := by
  refine ⟨rfl, rfl, by decide, by decide⟩

/-- C8: the single statement of `executorLost` reads `exeuctorId.value`,
a misspelling of the `executorId` parameter that is bound to no local
name, so for every executor id, slave id, status and scheduler state the
handler raises `NameError` instead of logging — the code contradicts the
claim (and its own evident intent). -/
theorem c8_executorLost_raises_NameError (s : SchedulerState)
    (executorId slaveId : IdPb) (status : Int) :
    HTTPProxyScheduler.executorLost s executorId slaveId status
      = .error (.nameError "exeuctorId") := by
  simp [HTTPProxyScheduler.executorLost, HTTPProxyScheduler.executorLostLocals]

/-- C9: for every scheduler state — including one reached after launches
were already issued — and every offer id, `offerRescinded` only logs:
all four scheduler fields (`tasksLaunched`, `tasksFinished`, `executor`,
`service`) are unchanged. -/
theorem c9_offerRescinded_is_noop (s : SchedulerState) (offerId : IdPb) :
    (HTTPProxyScheduler.offerRescinded s offerId).1 = s ∧
    (HTTPProxyScheduler.offerRescinded s offerId).1.tasksLaunched
      = s.tasksLaunched ∧
    (HTTPProxyScheduler.offerRescinded s offerId).1.tasksFinished
      = s.tasksFinished ∧
    (HTTPProxyScheduler.offerRescinded s offerId).1.executor = s.executor ∧
    (HTTPProxyScheduler.offerRescinded s offerId).1.service = s.service := by
  refine ⟨rfl, rfl, rfl, rfl, rfl⟩

/-- C10: for every status update whose state is not TASK_FINISHED —
whatever the task id, launched by this process or not — `statusUpdate`
leaves the whole scheduler state, hence every field (`tasksLaunched`,
`tasksFinished`, `executor`, `service`), unchanged. -/
theorem c10_statusUpdate_frame (s : SchedulerState) (u : TaskStatus)
    (h : u.state ≠ TASK_FINISHED) :
    (HTTPProxyScheduler.statusUpdate s u).1 = s ∧
    (HTTPProxyScheduler.statusUpdate s u).1.tasksLaunched
      = s.tasksLaunched ∧
    (HTTPProxyScheduler.statusUpdate s u).1.tasksFinished
      = s.tasksFinished ∧
    (HTTPProxyScheduler.statusUpdate s u).1.executor = s.executor ∧
    (HTTPProxyScheduler.statusUpdate s u).1.service = s.service := by
  have h1 : (HTTPProxyScheduler.statusUpdate s u).1 = s := by
    simp [HTTPProxyScheduler.statusUpdate, h]
  exact ⟨h1, by rw [h1], by rw [h1], by rw [h1], by rw [h1]⟩

/-- Witness for C10 at a RUNNING (state 1) update for task "t2" on the
fresh state. -/
theorem c10_statusUpdate_frame_witness :
    (HTTPProxyScheduler.statusUpdate state0 runningT2).1 = state0 ∧
    (HTTPProxyScheduler.statusUpdate state0 runningT2).1.tasksLaunched
      = state0.tasksLaunched ∧
    (HTTPProxyScheduler.statusUpdate state0 runningT2).1.tasksFinished
      = state0.tasksFinished ∧
    (HTTPProxyScheduler.statusUpdate state0 runningT2).1.executor
      = state0.executor ∧
    (HTTPProxyScheduler.statusUpdate state0 runningT2).1.service
      = state0.service :=
  c10_statusUpdate_frame state0 runningT2 (by decide)
